import Mathlib

/-
Verification of the local-first persistence and synchronization engine of
the offline-rapid-care repository (src/database_setup.py, class
DatabaseManager).  The model below is a shallow embedding of the methods
named by the claims, restricted to the `patients` entity (the facade write
the claims exercise); the sync-queue and drain mechanics are independent of
the entity payload.  Fallible I/O sites (the SQLite record insert, the
sync_queue insert, the PostgreSQL connection/execute, SQLite reads, and
json.loads of a queue entry's data) are driven by explicit fault flags in
an `Env` value, mirroring exactly which Python `try/except` blocks swallow
an exception and which re-raise.
-/

namespace RapidCare

/-- One row of the SQLite `patients` table (src/database_setup.py lines
86-102); `video_analysis` holds the `json.dumps` serialization the code
stores (the string "null" when the input omitted the field). -/
structure PatientRow where
  id : String
  rfid : String
  name : String
  age : Option Int
  triage_level : String
  status : String
  notes : String
  location : String
  created_at : String
  updated_at : String
  sync_status : String
  sync_timestamp : Option String
  video_analysis : String
deriving DecidableEq

/-- One row of the PostgreSQL `patients` table (lines 241-255): same
columns minus the local-only `sync_status` / `sync_timestamp`. -/
structure RemotePatientRow where
  id : String
  rfid : String
  name : String
  age : Option Int
  triage_level : String
  status : String
  notes : String
  location : String
  created_at : String
  updated_at : String
  video_analysis : String
deriving DecidableEq

/-- One row of the SQLite `soap_notes` table (lines 105-120). -/
structure SoapRow where
  id : String
  patient_id : String
  doctor_id : String
  subjective : String
  objective : String
  assessment : String
  plan : String
  created_at : String
  updated_at : String
  sync_status : String
  sync_timestamp : Option String
deriving DecidableEq

/-- One row of the SQLite `vitals` table (lines 198-214).  The REAL
columns `o2_sat` and `temperature` are opaque payload data (the code never
computes with them), modelled as integers. -/
structure VitalsRow where
  id : String
  patient_id : String
  heart_rate : Option Int
  bp_sys : Option Int
  bp_dia : Option Int
  resp_rate : Option Int
  o2_sat : Option Int
  temperature : Option Int
  pain_score : Option Int
  timestamp : String
  created_at : String
  created_by : String
deriving DecidableEq

/-- One row of the SQLite `sync_queue` table (lines 185-195).  `data`
holds the decoded json snapshot the code stores with `json.dumps`;
the model instantiates it at the patients payload. -/
structure SyncQueueRow where
  id : String
  table_name : String
  record_id : String
  operation : String
  data : PatientRow
  timestamp : String
  retry_count : Nat
deriving DecidableEq

/-- The state a `DatabaseManager` instance manipulates: the local SQLite
tables, the committed contents of the remote PostgreSQL `patients` table
(`remote`), plus `pushLog`, the trace of remote upserts actually executed
over the wire (one element per successful `conn.execute` against
PostgreSQL, in execution order — whether or not the transaction is later
committed). -/
structure DBState where
  patients : List PatientRow
  soap_notes : List SoapRow
  vitals : List VitalsRow
  sync_queue : List SyncQueueRow
  remote : List RemotePatientRow
  pushLog : List RemotePatientRow
  online_available : Bool
  sync_enabled : Bool
deriving DecidableEq

/-- Fault environment: which fallible I/O site raises during a call, plus
the ids of queue entries whose stored json fails to decode, and the wall
clock used for sync timestamps. -/
structure Env where
  localInsertFails : Bool
  queueInsertFails : Bool
  remoteFails : Bool
  readFails : Bool
  corrupt : List String
  now : String
deriving DecidableEq

/-- The input dict of `add_patient` (line 365): every field the code reads
with `patient_data.get`, absent keys modelled as `none`. -/
structure PatientInput where
  rfid : Option String
  name : Option String
  age : Option Int
  triage_level : Option String
  status : Option String
  notes : Option String
  location : Option String
  video_analysis : Option String
deriving DecidableEq

/-- Model of `json.dumps(patient_data.get('video_analysis'))` at line 385:
an absent value serializes to the string "null". -/
def jsonDumpsOpt : Option String → String
  | none => "null"
  | some v => v

/-- The `patient_record` dict built by `add_patient` (lines 371-386):
defaults 'Unknown'/'Green'/'Active'/'Unknown', an rfid derived from the
fresh id when absent, both timestamps set to now, sync_status 'pending'. -/
def mkPatientRecord (pd : PatientInput) (pid ts : String) : PatientRow :=
  { id := pid
    rfid := pd.rfid.getD ("RFID-" ++ (pid.take 8).toUpper)
    name := pd.name.getD "Unknown"
    age := pd.age
    triage_level := pd.triage_level.getD "Green"
    status := pd.status.getD "Active"
    notes := pd.notes.getD ""
    location := pd.location.getD "Unknown"
    created_at := ts
    updated_at := ts
    sync_status := "pending"
    sync_timestamp := none
    video_analysis := jsonDumpsOpt pd.video_analysis }

/-- `_add_to_sync_queue` (lines 952-975): inserts a queue row in its own
connection/transaction; its `except` clause only logs, so a failure is
swallowed and the caller sees no error and no queue row. -/
def addToSyncQueue (f : Env) (s : DBState) (table recId op : String)
    (data : PatientRow) (qid qts : String) : DBState :=
  if f.queueInsertFails then s
  else { s with sync_queue :=
          s.sync_queue ++ [⟨qid, table, recId, op, data, qts, 0⟩] }

/-- `_mark_synced` (lines 1100-1116): sets sync_status='synced' and
sync_timestamp on the record's row; tables other than `patients` are
outside this model. -/
def markSynced (s : DBState) (table recId ts : String) : DBState :=
  if table = "patients" then
    { s with patients := s.patients.map (fun p =>
        if p.id = recId then
          { p with sync_status := "synced", sync_timestamp := some ts }
        else p) }
  else s

/-- Projection of a stored patient snapshot onto the PostgreSQL columns
named by the upsert statement at lines 987-1013 (INSERT ... ON CONFLICT
(id) DO UPDATE SET every column except id and created_at to the EXCLUDED
value, with no comparison of updated_at). -/
def toRemote (p : PatientRow) : RemotePatientRow :=
  { id := p.id, rfid := p.rfid, name := p.name, age := p.age
    triage_level := p.triage_level, status := p.status, notes := p.notes
    location := p.location, created_at := p.created_at
    updated_at := p.updated_at, video_analysis := p.video_analysis }

/-- `_sync_to_postgresql` (lines 977-1098), patients branch: returns early
when offline; its try block wraps connect, execute and `_mark_synced`, and
the `except` clause only logs — every remote failure is swallowed, the
function never signals failure to its caller.  On success the upsert
statement is executed over the wire (recorded in `pushLog`), but the
psycopg3 connection — opened with the default autocommit off — is closed
at line 1090 without ever calling `conn.commit()`, which rolls the open
transaction back: the committed remote table (`remote`) is left
unchanged.  `_mark_synced` still runs unconditionally after the operation
dispatch (line 1093), marking the local row 'synced'. -/
def syncToPostgresql (f : Env) (s : DBState) (table : String)
    (data : PatientRow) (op : String) : DBState :=
  if s.online_available = false then s
  else if f.remoteFails then s
  else
    let s1 :=
      if op = "INSERT" ∧ table = "patients" then
        { s with pushLog := s.pushLog ++ [toRemote data] }
      else s
    markSynced s1 table data.id f.now

/-- `_remove_from_sync_queue` (lines 1161-1173): DELETE FROM sync_queue
WHERE id = queue_id; its own failures are swallowed. -/
def removeFromSyncQueue (s : DBState) (qid : String) : DBState :=
  { s with sync_queue := s.sync_queue.filter (fun e => e.id != qid) }

/-- `_increment_retry_count` (lines 1175-1191): UPDATE sync_queue SET
retry_count = retry_count + 1 WHERE id = queue_id.  No ceiling is checked,
no status is changed, the entry stays. -/
def incrementRetryCount (s : DBState) (qid : String) : DBState :=
  { s with sync_queue := s.sync_queue.map (fun e =>
      if e.id = qid then { e with retry_count := e.retry_count + 1 } else e) }

/-- Ordering used by `SELECT * FROM sync_queue ORDER BY timestamp ASC`
(lines 1129-1132). -/
def tsLe (a b : SyncQueueRow) : Prop :=
  a.timestamp.data ≤ b.timestamp.data

instance : DecidableRel tsLe := fun a b =>
  inferInstanceAs (Decidable (a.timestamp.data ≤ b.timestamp.data))

instance : IsTotal SyncQueueRow tsLe :=
  ⟨fun a b => le_total a.timestamp.data b.timestamp.data⟩

instance : IsTrans SyncQueueRow tsLe :=
  ⟨fun _ _ _ hab hbc => le_trans hab hbc⟩

/-- The batch read at the top of `sync_pending_changes` (lines 1129-1134):
all sync_queue rows, ordered by timestamp ascending; no filter on
retry_count or anything else. -/
def selectPending (q : List SyncQueueRow) : List SyncQueueRow :=
  List.insertionSort tsLe q

/-- The loop body of `sync_pending_changes` (lines 1143-1154): the try
block decodes the entry's json, calls `_sync_to_postgresql` (which never
raises, see above) and `_remove_from_sync_queue` (likewise); the `except`
clause — reachable only when `json.loads` fails on a corrupt entry — calls
`_increment_retry_count` instead.  Hence every non-corrupt entry is
removed whether or not its remote push succeeded. -/
def drainStep (f : Env) (st : DBState) (item : SyncQueueRow) : DBState :=
  if item.id ∈ f.corrupt then incrementRetryCount st item.id
  else
    removeFromSyncQueue
      (syncToPostgresql f st item.table_name item.data item.operation)
      item.id

/-- `sync_pending_changes` (lines 1118-1159): returns early when offline,
otherwise fetches the whole queue ordered by timestamp and processes each
item with the loop body above. -/
def syncPendingChanges (f : Env) (s : DBState) : DBState :=
  if s.online_available = false then s
  else (selectPending s.sync_queue).foldl (drainStep f) s

/-- `add_patient` (lines 365-435): builds the record, inserts it into
SQLite (a raise here propagates, lines 427-429), appends to the sync queue
in a second transaction (failures swallowed), then — when
`online_available` and `sync_enabled` — synchronously calls
`_sync_to_postgresql` before returning the new id (lines 431-435).
The optional vector-search indexing is an external collaborator whose
errors are swallowed; it touches none of this state. -/
def addPatient (f : Env) (s : DBState) (pd : PatientInput)
    (pid ts qid qts : String) : DBState × Except String String :=
  let r := mkPatientRecord pd pid ts
  if f.localInsertFails then (s, Except.error "sqlite insert failed")
  else
    let s1 := { s with patients := s.patients ++ [r] }
    let s2 := addToSyncQueue f s1 "patients" pid "INSERT" r qid qts
    let s3 :=
      if s2.online_available && s2.sync_enabled then
        syncToPostgresql f s2 "patients" r "INSERT"
      else s2
    (s3, Except.ok pid)

/-- Ordering used by `ORDER BY created_at DESC` in `get_patients`. -/
def createdDescP (a b : PatientRow) : Prop :=
  b.created_at.data ≤ a.created_at.data

instance : DecidableRel createdDescP := fun a b =>
  inferInstanceAs (Decidable (b.created_at.data ≤ a.created_at.data))

/-- Ordering used by `ORDER BY created_at DESC` in `get_soap_notes`. -/
def createdDescS (a b : SoapRow) : Prop :=
  b.created_at.data ≤ a.created_at.data

instance : DecidableRel createdDescS := fun a b =>
  inferInstanceAs (Decidable (b.created_at.data ≤ a.created_at.data))

/-- Ordering used by `ORDER BY timestamp DESC` in `get_vitals`. -/
def tsDescV (a b : VitalsRow) : Prop :=
  b.timestamp.data ≤ a.timestamp.data

instance : DecidableRel tsDescV := fun a b =>
  inferInstanceAs (Decidable (b.timestamp.data ≤ a.timestamp.data))

/-- `get_patients` (lines 437-464): SELECT ordered by created_at DESC with
a LIMIT; the whole body is wrapped in try/except returning [] on any
error, and nothing is written. -/
def getPatients (f : Env) (s : DBState) (lim : Nat) :
    DBState × List PatientRow :=
  if f.readFails then (s, [])
  else (s, (List.insertionSort createdDescP s.patients).take lim)

/-- `get_soap_notes` (lines 531-568): filter by patient_id if given, else
by doctor_id if given, else all; ordered by created_at DESC; [] on any
error. -/
def getSoapNotes (f : Env) (s : DBState)
    (patient_id doctor_id : Option String) : DBState × List SoapRow :=
  if f.readFails then (s, [])
  else
    let rows :=
      match patient_id with
      | some p => s.soap_notes.filter (fun n => n.patient_id == p)
      | none =>
        match doctor_id with
        | some d => s.soap_notes.filter (fun n => n.doctor_id == d)
        | none => s.soap_notes
    (s, List.insertionSort createdDescS rows)

/-- `get_vitals` (lines 1267-1282): rows of one patient ordered by
timestamp DESC; [] on any error. -/
def getVitals (f : Env) (s : DBState) (patient_id : String) :
    DBState × List VitalsRow :=
  if f.readFails then (s, [])
  else
    (s, List.insertionSort tsDescV
          (s.vitals.filter (fun v => v.patient_id == patient_id)))

/- Concrete fixtures used to evaluate the model on small inputs. -/

def tsZ : String := "2025-01-01T00:00:00+00:00"

def p0 : PatientRow :=
  { id := "p1", rfid := "RFID-0", name := "Alice", age := none,
    triage_level := "Red", status := "Active", notes := "",
    location := "Zone A", created_at := tsZ, updated_at := tsZ,
    sync_status := "pending", sync_timestamp := none,
    video_analysis := "null" }

def e0 : SyncQueueRow :=
  { id := "q1", table_name := "patients", record_id := "p1",
    operation := "INSERT", data := p0,
    timestamp := "2025-01-01T00:00:01+00:00", retry_count := 0 }

def envOk : Env :=
  { localInsertFails := false, queueInsertFails := false,
    remoteFails := false, readFails := false, corrupt := [],
    now := "2025-01-01T00:10:00+00:00" }

def envRemoteDown : Env := { envOk with remoteFails := true }

def envQueueDown : Env := { envOk with queueInsertFails := true }

def envLocalDown : Env := { envOk with localInsertFails := true }

def envReadDown : Env := { envOk with readFails := true }

def emptyState : DBState :=
  { patients := [], soap_notes := [], vitals := [], sync_queue := [],
    remote := [], pushLog := [], online_available := false,
    sync_enabled := true }

def s0 : DBState :=
  { emptyState with patients := [p0], sync_queue := [e0],
                    online_available := true }

def pdNone : PatientInput :=
  { rfid := none, name := none, age := none, triage_level := none,
    status := none, notes := none, location := none,
    video_analysis := none }

/-- C1: with one pending queue entry and the remote upsert failing (the
network drops while online_available is still true), one drain cycle
deletes the queue entry anyway: `_sync_to_postgresql` swallows the
failure, so `sync_pending_changes` proceeds to `_remove_from_sync_queue`.
Nothing was pushed, the retry count was not incremented, the record is
still 'pending', and the mutation is lost — the entry was acked without
remote success, contradicting the claim. -/
theorem drain_removes_entry_despite_remote_failure :
    (syncPendingChanges envRemoteDown s0).sync_queue = [] ∧
    (syncPendingChanges envRemoteDown s0).pushLog = [] ∧
    (syncPendingChanges envRemoteDown s0).remote = [] ∧
    (syncPendingChanges envRemoteDown s0).patients.map
      (fun p => p.sync_status) = ["pending"] := by
  decide

/-- C5: the drain batch is read oldest-first: `selectPending` — the model
of SELECT * FROM sync_queue ORDER BY timestamp ASC, the list over which
`sync_pending_changes` folds — is sorted by enqueue timestamp ascending
and is a permutation of the queue (every entry appears, none is dropped or
duplicated), so entries, in particular two mutations of one record, are
processed in enqueue-timestamp order within a drain. -/
theorem drain_batch_sorted_oldest_first (q : List SyncQueueRow) :
    List.Sorted tsLe (selectPending q) ∧ (selectPending q).Perm q :=
  ⟨List.sorted_insertionSort tsLe q, List.perm_insertionSort tsLe q⟩

/-- C9: the read accessors never raise — on an internal storage error each
returns the empty list, indistinguishable from an empty result — and a
read never modifies stored state: the state component of the result is
always the input state. -/
theorem read_accessors_total_and_pure (f : Env) (s : DBState) (lim : Nat)
    (pid did : Option String) (vp : String) :
    ((getPatients f s lim).1 = s ∧ (getSoapNotes f s pid did).1 = s ∧
      (getVitals f s vp).1 = s) ∧
    (f.readFails = true →
      (getPatients f s lim).2 = [] ∧ (getSoapNotes f s pid did).2 = [] ∧
      (getVitals f s vp).2 = []) := by
  constructor
  · refine ⟨?_, ?_, ?_⟩ <;>
      cases hf : f.readFails <;>
        simp [getPatients, getSoapNotes, getVitals, hf]
  · intro h
    simp [getPatients, getSoapNotes, getVitals, h]

/-- C9 witness: the error branch evaluated at a concrete failing read. -/
theorem read_accessors_total_and_pure_witness :
    (getPatients envReadDown s0 5).2 = [] ∧
    (getSoapNotes envReadDown s0 none none).2 = [] ∧
    (getVitals envReadDown s0 "p1").2 = [] :=
  (read_accessors_total_and_pure envReadDown s0 5 none none "p1").2 rfl

/-- C10: add_patient stores fixed defaults for omitted fields — name
'Unknown', triage_level 'Green', status 'Active', location 'Unknown' —
and derives a missing rfid as "RFID-" followed by the first 8 characters
of the new record id uppercased; when the local insert succeeds (offline
state), exactly this record is appended to the patients table. -/
theorem add_patient_defaults (f : Env) (s : DBState) (pd : PatientInput)
    (pid ts qid qts : String)
    (hn : pd.name = none) (ht : pd.triage_level = none)
    (hs : pd.status = none) (hl : pd.location = none) (hr : pd.rfid = none)
    (hf : f.localInsertFails = false) (ho : s.online_available = false) :
    (mkPatientRecord pd pid ts).name = "Unknown" ∧
    (mkPatientRecord pd pid ts).triage_level = "Green" ∧
    (mkPatientRecord pd pid ts).status = "Active" ∧
    (mkPatientRecord pd pid ts).location = "Unknown" ∧
    (mkPatientRecord pd pid ts).rfid = "RFID-" ++ (pid.take 8).toUpper ∧
    (addPatient f s pd pid ts qid qts).1.patients
      = s.patients ++ [mkPatientRecord pd pid ts] := by
  refine ⟨by simp [mkPatientRecord, hn], by simp [mkPatientRecord, ht],
    by simp [mkPatientRecord, hs], by simp [mkPatientRecord, hl],
    by simp [mkPatientRecord, hr], ?_⟩
  cases hq : f.queueInsertFails <;>
    simp [addPatient, addToSyncQueue, hf, ho, hq]

/-- C10 witness: all defaults evaluated at a concrete all-absent input. -/
theorem add_patient_defaults_witness :
    (mkPatientRecord pdNone "ab12cd34-0000" tsZ).name = "Unknown" ∧
    (mkPatientRecord pdNone "ab12cd34-0000" tsZ).triage_level = "Green" ∧
    (mkPatientRecord pdNone "ab12cd34-0000" tsZ).status = "Active" ∧
    (mkPatientRecord pdNone "ab12cd34-0000" tsZ).location = "Unknown" ∧
    (mkPatientRecord pdNone "ab12cd34-0000" tsZ).rfid
      = "RFID-" ++ (("ab12cd34-0000").take 8).toUpper ∧
    (addPatient envOk emptyState pdNone "ab12cd34-0000" tsZ "q1" tsZ).1.patients
      = emptyState.patients ++ [mkPatientRecord pdNone "ab12cd34-0000" tsZ] :=
  add_patient_defaults envOk emptyState pdNone "ab12cd34-0000" tsZ "q1" tsZ
    rfl rfl rfl rfl rfl rfl rfl

/-- C2 counterexample: with the sync-queue insert failing, add_patient at
a concrete input still returns success and leaves the record row present
with no sync_queue entry — a reachable state the claim says cannot exist,
because `_add_to_sync_queue` runs in its own transaction and swallows its
own errors. -/
theorem add_patient_atomicity_counterexample :
    (addPatient envQueueDown emptyState pdNone "p9" tsZ "q9" tsZ).2
      = Except.ok "p9" ∧
    (addPatient envQueueDown emptyState pdNone "p9" tsZ "q9" tsZ).1.patients
      = [mkPatientRecord pdNone "p9" tsZ] ∧
    (addPatient envQueueDown emptyState pdNone "p9" tsZ "q9" tsZ).1.sync_queue
      = [] :=
  ⟨rfl, rfl, rfl⟩

/-- C2 amended: the record insert and the sync-queue append are two
separate local transactions, not one atomic one: when the record insert
succeeds and the queue append fails (offline state), the call still
returns the new id, the record is appended, and no queue entry exists —
so a state with the record present and its queue entry missing is
reachable.  (A record-insert failure does abort the call with neither
row.) -/
theorem add_patient_separate_transactions (f : Env) (s : DBState)
    (pd : PatientInput) (pid ts qid qts : String)
    (hf : f.localInsertFails = false) (hq : f.queueInsertFails = true)
    (ho : s.online_available = false) :
    (addPatient f s pd pid ts qid qts).2 = Except.ok pid ∧
    (addPatient f s pd pid ts qid qts).1.patients
      = s.patients ++ [mkPatientRecord pd pid ts] ∧
    (addPatient f s pd pid ts qid qts).1.sync_queue = s.sync_queue := by
  simp [addPatient, addToSyncQueue, hf, hq, ho]

/-- C2 witness: the amended statement evaluated at a concrete input. -/
theorem add_patient_separate_transactions_witness :
    (addPatient envQueueDown emptyState pdNone "p2" tsZ "q2" tsZ).2
      = Except.ok "p2" ∧
    (addPatient envQueueDown emptyState pdNone "p2" tsZ "q2" tsZ).1.patients
      = emptyState.patients ++ [mkPatientRecord pdNone "p2" tsZ] ∧
    (addPatient envQueueDown emptyState pdNone "p2" tsZ "q2" tsZ).1.sync_queue
      = emptyState.sync_queue :=
  add_patient_separate_transactions envQueueDown emptyState pdNone
    "p2" tsZ "q2" tsZ rfl rfl rfl

/-- C6 counterexample: a local storage I/O error in the sync-queue append
is NOT propagated: add_patient still returns success, because
`_add_to_sync_queue` catches the exception and only logs it. -/
theorem queue_error_swallowed_counterexample :
    (addPatient envQueueDown emptyState pdNone "p6" tsZ "q6" tsZ).2
      = Except.ok "p6" :=
  rfl

/-- C6 amended: only a record-insert I/O error is propagated to the
caller (with no state change); every other local failure — in particular
a sync-queue append error — is swallowed and the write still returns the
new id as success. -/
theorem add_patient_error_propagation (f : Env) (s : DBState)
    (pd : PatientInput) (pid ts qid qts : String) :
    (f.localInsertFails = true →
      addPatient f s pd pid ts qid qts
        = (s, Except.error "sqlite insert failed")) ∧
    (f.localInsertFails = false →
      (addPatient f s pd pid ts qid qts).2 = Except.ok pid) := by
  constructor <;> intro h <;> simp [addPatient, h]

/-- C6 witness: both branches of the amended statement at concrete
inputs — a failing record insert propagates, a failing queue append does
not. -/
theorem add_patient_error_propagation_witness :
    (addPatient envLocalDown emptyState pdNone "p7" tsZ "q7" tsZ
      = (emptyState, Except.error "sqlite insert failed")) ∧
    (addPatient envOk emptyState pdNone "p7" tsZ "q7" tsZ).2
      = Except.ok "p7" :=
  ⟨(add_patient_error_propagation envLocalDown emptyState pdNone
      "p7" tsZ "q7" tsZ).1 rfl,
   (add_patient_error_propagation envOk emptyState pdNone
      "p7" tsZ "q7" tsZ).2 rfl⟩

def sOnlineEmpty : DBState := { emptyState with online_available := true }

/-- C7 counterexample: in the online state (online_available and
sync_enabled both true) add_patient synchronously executes a remote
upsert — network I/O against PostgreSQL — before returning the id: the
push log has grown by the time the call returns, contradicting "never
performs a remote-store push or any network I/O before returning, in
every connectivity state".  (The executed upsert is then rolled back at
conn.close() since _sync_to_postgresql never commits, so the committed
remote table itself does not change — but the push was performed.) -/
theorem write_pushes_remote_counterexample :
    (addPatient envOk sOnlineEmpty pdNone "p3" tsZ "q3" tsZ).1.pushLog
      = [toRemote (mkPatientRecord pdNone "p3" tsZ)] :=
  rfl

/-- C7 amended: the write touches only local state when offline or with
sync disabled; when online_available and sync_enabled it additionally
executes, before returning, a synchronous best-effort remote upsert —
network I/O which, for lack of a commit, never persists remotely. -/
theorem write_local_only_when_offline (f : Env) (s : DBState)
    (pd : PatientInput) (pid ts qid qts : String)
    (ho : (s.online_available && s.sync_enabled) = false) :
    (addPatient f s pd pid ts qid qts).1.remote = s.remote ∧
    (addPatient f s pd pid ts qid qts).1.pushLog = s.pushLog := by
  cases hf : f.localInsertFails <;> cases hq : f.queueInsertFails <;>
    simp [addPatient, addToSyncQueue, hf, hq, ho]

/-- C7 witness: the amended frame property at a concrete offline state. -/
theorem write_local_only_when_offline_witness :
    (addPatient envOk emptyState pdNone "p4" tsZ "q4" tsZ).1.remote
      = emptyState.remote ∧
    (addPatient envOk emptyState pdNone "p4" tsZ "q4" tsZ).1.pushLog
      = emptyState.pushLog :=
  write_local_only_when_offline envOk emptyState pdNone "p4" tsZ "q4" tsZ rfl

def pA : PatientRow :=
  { p0 with name := "A", updated_at := "2025-01-01T12:00:00+00:00" }

def eA : SyncQueueRow := { e0 with id := "qa1", data := pA }

def pBl : PatientRow :=
  { p0 with name := "B", updated_at := "2025-01-01T13:00:00+00:00" }

def eBl : SyncQueueRow :=
  { id := "qa2", table_name := "patients", record_id := "p1",
    operation := "INSERT", data := pBl,
    timestamp := "2025-01-01T13:00:01+00:00", retry_count := 0 }

def s4 : DBState :=
  { emptyState with patients := [pBl], sync_queue := [eA, eBl],
                    online_available := true }

/-- C4: record p1 was mutated twice — payload A (updated_at 12:00) then
payload B (updated_at 13:00), both queued — and a drain runs online with
the remote reachable.  Both upserts are executed over the wire in order,
but `_sync_to_postgresql` never calls conn.commit() on its psycopg3
connection (autocommit off), so conn.close() at line 1090 rolls each
transaction back: after the drain the remote table holds neither A nor B,
even though the record has been marked 'synced' locally and success was
logged — the remote never comes to hold B, contradicting the claim, and
contradicting the code's own sync bookkeeping. -/
theorem remote_upsert_rolled_back :
    (syncPendingChanges envOk s4).pushLog.map (fun r => r.name)
      = ["A", "B"] ∧
    (syncPendingChanges envOk s4).remote = [] ∧
    (syncPendingChanges envOk s4).patients.map (fun p => p.sync_status)
      = ["synced"] := by
  decide

/- Frame lemmas for the drain components: each helper touches only the
fields its SQL statement names. -/

theorem markSynced_pushLog (s : DBState) (t r ts : String) :
    (markSynced s t r ts).pushLog = s.pushLog := by
  unfold markSynced; split <;> rfl

theorem markSynced_online (s : DBState) (t r ts : String) :
    (markSynced s t r ts).online_available = s.online_available := by
  unfold markSynced; split <;> rfl

theorem markSynced_queue (s : DBState) (t r ts : String) :
    (markSynced s t r ts).sync_queue = s.sync_queue := by
  unfold markSynced; split <;> rfl

theorem syncToPostgresql_online (f : Env) (s : DBState) (t : String)
    (d : PatientRow) (op : String) :
    (syncToPostgresql f s t d op).online_available = s.online_available := by
  unfold syncToPostgresql
  split
  · rfl
  split
  · rfl
  rw [markSynced_online]
  split <;> rfl

theorem syncToPostgresql_queue (f : Env) (s : DBState) (t : String)
    (d : PatientRow) (op : String) :
    (syncToPostgresql f s t d op).sync_queue = s.sync_queue := by
  unfold syncToPostgresql
  split
  · rfl
  split
  · rfl
  rw [markSynced_queue]
  split <;> rfl

theorem syncToPostgresql_pushLog_push (f : Env) (s : DBState)
    (d : PatientRow) (hon : s.online_available = true)
    (hrf : f.remoteFails = false) :
    (syncToPostgresql f s "patients" d "INSERT").pushLog
      = s.pushLog ++ [toRemote d] := by
  simp [syncToPostgresql, hon, hrf, markSynced_pushLog]

theorem drainStep_online (f : Env) (st : DBState) (e : SyncQueueRow) :
    (drainStep f st e).online_available = st.online_available := by
  unfold drainStep
  split
  · rfl
  · show (removeFromSyncQueue _ _).online_available = _
    simp [removeFromSyncQueue, syncToPostgresql_online]

theorem drainStep_pushLog_push (f : Env) (st : DBState) (e : SyncQueueRow)
    (hc : e.id ∉ f.corrupt) (hon : st.online_available = true)
    (hrf : f.remoteFails = false) (hop : e.operation = "INSERT")
    (ht : e.table_name = "patients") :
    (drainStep f st e).pushLog = st.pushLog ++ [toRemote e.data] := by
  unfold drainStep
  rw [if_neg hc]
  show (removeFromSyncQueue _ _).pushLog = _
  rw [ht, hop]
  simp [removeFromSyncQueue, syncToPostgresql_pushLog_push f st e.data hon hrf]

theorem drainStep_queue_filter (f : Env) (st : DBState) (e : SyncQueueRow)
    (hc : e.id ∉ f.corrupt) :
    (drainStep f st e).sync_queue
      = st.sync_queue.filter (fun x => x.id != e.id) := by
  unfold drainStep
  rw [if_neg hc]
  simp [removeFromSyncQueue, syncToPostgresql_queue]

theorem foldl_drain_pushLog (f : Env) (items : List SyncQueueRow)
    (hrf : f.remoteFails = false) :
    ∀ st : DBState, st.online_available = true →
      (∀ e ∈ items, e.id ∉ f.corrupt ∧ e.operation = "INSERT" ∧
        e.table_name = "patients") →
      (items.foldl (drainStep f) st).pushLog
        = st.pushLog ++ items.map (fun e => toRemote e.data) := by
  induction items with
  | nil => intro st _ _; simp
  | cons e items ih =>
      intro st hon hall
      have he := hall e (List.mem_cons_self e items)
      have hstep : (drainStep f st e).pushLog
          = st.pushLog ++ [toRemote e.data] :=
        drainStep_pushLog_push f st e he.1 hon hrf he.2.1 he.2.2
      have hon' : (drainStep f st e).online_available = true := by
        rw [drainStep_online]; exact hon
      have htail := ih (drainStep f st e) hon'
        (fun x hx => hall x (List.mem_cons_of_mem e hx))
      simp only [List.foldl_cons, htail, hstep, List.map_cons,
        List.append_assoc, List.cons_append, List.nil_append]

theorem foldl_drain_queue (f : Env) (items : List SyncQueueRow) :
    ∀ st : DBState, (∀ e ∈ items, e.id ∉ f.corrupt) →
      (items.foldl (drainStep f) st).sync_queue
        = items.foldl (fun q i => q.filter (fun x => x.id != i.id))
            st.sync_queue := by
  induction items with
  | nil => intro st _; rfl
  | cons e items ih =>
      intro st hall
      simp only [List.foldl_cons]
      rw [ih (drainStep f st e) (fun x hx => hall x (List.mem_cons_of_mem e hx)),
        drainStep_queue_filter f st e (hall e (List.mem_cons_self e items))]

theorem foldl_filter_nil (items : List SyncQueueRow) :
    ∀ q : List SyncQueueRow,
      (∀ x ∈ q, ∃ i ∈ items, x.id = i.id) →
      items.foldl (fun q i => q.filter (fun x => x.id != i.id)) q = [] := by
  induction items with
  | nil =>
      intro q h
      cases q with
      | nil => rfl
      | cons a q => exact absurd (h a (List.mem_cons_self a q)) (by simp)
  | cons i items ih =>
      intro q h
      simp only [List.foldl_cons]
      apply ih
      intro x hx
      rw [List.mem_filter] at hx
      obtain ⟨hxq, hne⟩ := hx
      obtain ⟨j, hj, hid⟩ := h x hxq
      rcases List.mem_cons.mp hj with rfl | hj'
      · exact absurd hid (by simpa using hne)
      · exact ⟨j, hj', hid⟩

def pB : PatientRow :=
  { p0 with name := "B2", updated_at := "2025-01-01T00:05:00+00:00" }

def eB : SyncQueueRow :=
  { id := "q2", table_name := "patients", record_id := "p1",
    operation := "INSERT", data := pB,
    timestamp := "2025-01-01T00:05:01+00:00", retry_count := 0 }

def s8 : DBState :=
  { emptyState with patients := [pB], sync_queue := [e0, eB],
                    online_available := true }

/-- C8 counterexample: two queued mutations of the same record (record_id
"p1") are both pushed by one drain — the stale first snapshot is actually
sent to the remote, not acked-without-sending: the push log after the
drain contains both payloads in enqueue order, so no coalescing takes
place. -/
theorem no_coalescing_counterexample :
    (syncPendingChanges envOk s8).pushLog = [toRemote p0, toRemote pB] := by
  decide

/-- C8 amended: no coalescing occurs: when online, with the remote up and
every queue entry a decodable patients INSERT, one drain pushes every
entry individually — duplicates for the same record included — in
ascending enqueue-timestamp order, and removes each entry after its own
push; no entry is acked without being sent. -/
theorem drain_pushes_every_entry (f : Env) (s : DBState)
    (hon : s.online_available = true) (hrf : f.remoteFails = false)
    (hall : ∀ e ∈ s.sync_queue, e.id ∉ f.corrupt ∧
      e.operation = "INSERT" ∧ e.table_name = "patients") :
    (syncPendingChanges f s).pushLog
      = s.pushLog ++ (selectPending s.sync_queue).map
          (fun e => toRemote e.data) ∧
    (syncPendingChanges f s).sync_queue = [] := by
  have hperm : (selectPending s.sync_queue).Perm s.sync_queue :=
    List.perm_insertionSort tsLe s.sync_queue
  have hall' : ∀ e ∈ selectPending s.sync_queue, e.id ∉ f.corrupt ∧
      e.operation = "INSERT" ∧ e.table_name = "patients" :=
    fun e he => hall e (hperm.mem_iff.mp he)
  unfold syncPendingChanges
  rw [if_neg (by simp [hon])]
  constructor
  · exact foldl_drain_pushLog f (selectPending s.sync_queue) hrf s hon hall'
  · rw [foldl_drain_queue f (selectPending s.sync_queue) s
      (fun e he => (hall' e he).1)]
    apply foldl_filter_nil
    intro x hx
    exact ⟨x, hperm.mem_iff.mpr hx, rfl⟩

/-- C8 witness: the amended statement evaluated on a concrete one-entry
queue. -/
theorem drain_pushes_every_entry_witness :
    (syncPendingChanges envOk s0).pushLog
      = s0.pushLog ++ (selectPending s0.sync_queue).map
          (fun e => toRemote e.data) ∧
    (syncPendingChanges envOk s0).sync_queue = [] :=
  drain_pushes_every_entry envOk s0 rfl rfl (by decide)

/- The string "FAILED" never appears as a sync_status: no code path in
DatabaseManager writes it.  The lemmas below propagate that fact through
each drain component. -/

theorem markSynced_no_failed (s : DBState) (t r ts : String)
    (h : ∀ p ∈ s.patients, p.sync_status ≠ "FAILED") :
    ∀ p ∈ (markSynced s t r ts).patients, p.sync_status ≠ "FAILED" := by
  unfold markSynced
  split
  · intro p hp
    simp only [List.mem_map] at hp
    obtain ⟨q, hq, rfl⟩ := hp
    split
    · show "synced" ≠ "FAILED"
      decide
    · exact h q hq
  · exact h

theorem syncToPostgresql_no_failed (f : Env) (s : DBState) (t : String)
    (d : PatientRow) (op : String)
    (h : ∀ p ∈ s.patients, p.sync_status ≠ "FAILED") :
    ∀ p ∈ (syncToPostgresql f s t d op).patients,
      p.sync_status ≠ "FAILED" := by
  unfold syncToPostgresql
  split
  · exact h
  split
  · exact h
  apply markSynced_no_failed
  split
  · exact h
  · exact h

theorem drainStep_no_failed (f : Env) (st : DBState) (e : SyncQueueRow)
    (h : ∀ p ∈ st.patients, p.sync_status ≠ "FAILED") :
    ∀ p ∈ (drainStep f st e).patients, p.sync_status ≠ "FAILED" := by
  unfold drainStep
  split
  · exact h
  · intro p hp
    exact syncToPostgresql_no_failed f st e.table_name e.data e.operation
      h p hp

theorem foldl_drain_no_failed (f : Env) (items : List SyncQueueRow) :
    ∀ st : DBState, (∀ p ∈ st.patients, p.sync_status ≠ "FAILED") →
      ∀ p ∈ (items.foldl (drainStep f) st).patients,
        p.sync_status ≠ "FAILED" := by
  induction items with
  | nil => intro st h; exact h
  | cons e items ih =>
      intro st h
      exact ih (drainStep f st e) (drainStep_no_failed f st e h)

def e11 : SyncQueueRow := { e0 with id := "q9", retry_count := 11 }

def s3s : DBState :=
  { emptyState with patients := [p0], sync_queue := [e11],
                    online_available := true }

def envCorrupt : Env := { envOk with corrupt := ["q9"] }

/-- C3 counterexample: a queue entry whose retry_count (11) already
exceeds the ceiling the claim names (10) is still processed by the next
drain — its retry_count grows to 12 when its processing fails locally —
and its record's sync_status stays 'pending': the code never marks FAILED
and never stops retrying. -/
theorem retry_ceiling_counterexample :
    (syncPendingChanges envCorrupt s3s).sync_queue.map
      (fun e => (e.id, e.retry_count)) = [("q9", 12)] ∧
    (syncPendingChanges envCorrupt s3s).patients.map
      (fun p => p.sync_status) = ["pending"] := by
  decide

/-- C3 amended: no retry ceiling exists: every queue entry is included in
the drain batch regardless of its retry_count, and no drain ever sets a
patient's sync_status to 'FAILED' — _increment_retry_count only grows the
counter and nothing in the code compares it to a bound or marks a record
FAILED (and, per C1, a remotely failing entry is removed rather than
retained). -/
theorem no_retry_ceiling (f : Env) (s : DBState) (e : SyncQueueRow)
    (he : e ∈ s.sync_queue)
    (hnf : ∀ p ∈ s.patients, p.sync_status ≠ "FAILED") :
    e ∈ selectPending s.sync_queue ∧
    ∀ p ∈ (syncPendingChanges f s).patients, p.sync_status ≠ "FAILED" := by
  constructor
  · simpa [selectPending] using he
  · intro p hp
    unfold syncPendingChanges at hp
    by_cases ho : s.online_available = false
    · rw [if_pos ho] at hp
      exact hnf p hp
    · rw [if_neg ho] at hp
      exact foldl_drain_no_failed f (selectPending s.sync_queue) s hnf p hp

/-- C3 witness: the amended statement evaluated at the over-the-ceiling
entry. -/
theorem no_retry_ceiling_witness :
    e11 ∈ selectPending s3s.sync_queue ∧
    ∀ p ∈ (syncPendingChanges envCorrupt s3s).patients,
      p.sync_status ≠ "FAILED" :=
  no_retry_ceiling envCorrupt s3s e11 (by decide) (by decide)

end RapidCare
